import Mathlib

/-!
Verification of the RefineDet VGG-atrous feature extractor
(`gluoncv/model_zoo/refineDet/vgg_atrous_fusion.py`).

We shallowly embed the module:

* Construction time: each gluon sub-network (`stages`, `extras`,
  `last_layer_trans`, `transitions`, `fusions`) is a `List Layer`
  describing the exact sequence of convolution / batch-norm / ReLU
  layers that `__init__` adds, and the two `Normalize` instances are
  recorded as (channel count, initial scale) pairs.
* Forward time: symbolic tensors are terms of an inductive `FMap`
  with one constructor per tensor operation appearing in
  `hybrid_forward`; the forward pass is a Lean function in the
  `Except PyErr` monad.  Python list indexing (including negative
  indices and `IndexError`) is modelled by `pyGet`/`pySet`, the
  `assert len(self.stages) == 6` by an explicit check, and applying
  a block to `None` by a `noneTypeError`.
* `_upsample` additionally gets a concrete array semantics
  (`NDArray`) so that the nearest-neighbour replication property can
  be stated about actual element values.
-/

namespace RefineDet

/-- Python-level exceptions that the module can raise.
`assertionError` is what a failed `assert` raises (the spec's
"ConfigurationError" taxonomy entry), `keyError` a failed lookup in
the preset tables, `indexError` an out-of-range list index, and
`noneTypeError` the crash from applying a tensor operation to
`None`. -/
inductive PyErr where
  | assertionError : PyErr
  | keyError : PyErr
  | indexError : PyErr
  | noneTypeError : PyErr
deriving DecidableEq, Repr

/-- Turn a Python expression that may fail (modelled as `Option`)
into the exception monad, raising `e` on failure. -/
def ofOption {α : Type} (e : PyErr) : Option α → Except PyErr α
  | some a => Except.ok a
  | none => Except.error e

/-- Python list read `l[i]`, with Python's negative-index convention:
`l[-k]` reads `l[len(l) - k]`; out of range gives `none`
(an `IndexError`). -/
def pyGet {α : Type} (l : List α) (i : Int) : Option α :=
  if 0 ≤ i then l[i.toNat]?
  else if 0 ≤ i + l.length then l[(i + l.length).toNat]? else none

/-- Python list write `l[i] = v`, with the same index convention;
returns the updated list, or `none` when the index is out of range. -/
def pySet {α : Type} (l : List α) (i : Int) (v : α) : Option (List α) :=
  if 0 ≤ i then
    if i.toNat < l.length then some (l.set i.toNat v) else none
  else if 0 ≤ i + l.length then some (l.set (i + l.length).toNat v) else none

/-- One layer added by the constructors: a 2-D convolution with its
(channels, kernel, stride, padding, dilation) hyper-parameters, a
batch-normalization layer, or a ReLU activation. -/
inductive Layer where
  | conv (channels kernel stride padding dilation : Nat) : Layer
  | batchNorm : Layer
  | relu : Layer
deriving DecidableEq, Repr

/-- The optional `nn.BatchNorm()` inserted after a convolution when
`batch_norm` is true. -/
def convBN (batch_norm : Bool) : List Layer :=
  if batch_norm then [Layer.batchNorm] else []

/-- One VGG stage: `l` repetitions of
{3x3 conv, padding 1, `f` channels} + optional batch norm + ReLU
(`VGGAtrousBase.__init__`, the loop over `zip(layers, filters)`). -/
def vggStage (batch_norm : Bool) (l f : Nat) : List Layer :=
  (List.range l).foldl
    (fun acc _ => acc ++ ([Layer.conv f 3 1 1 1] ++ convBN batch_norm ++ [Layer.relu])) []

/-- The 6th "dilated" stage: 3x3 conv, padding 6, dilation 6, 1024
channels, then a 1x1 conv to 1024 channels, each followed by optional
batch norm and ReLU. -/
def dilatedStage (batch_norm : Bool) : List Layer :=
  [Layer.conv 1024 3 1 6 6] ++ convBN batch_norm ++ [Layer.relu] ++
  [Layer.conv 1024 1 1 0 1] ++ convBN batch_norm ++ [Layer.relu]

/-- The part of the network built by `VGGAtrousBase.__init__`:
the list of base stages and the two `Normalize` layers, each recorded
as (number of channels, initial scale). -/
structure VGGAtrousBaseNet where
  stages : List (List Layer)
  norm4 : Nat × Nat
  norm5 : Nat × Nat
deriving DecidableEq, Repr

/-- `VGGAtrousBase.__init__`: first `assert len(layers) == len(filters)`
(before any layer is built), then build the 5 VGG stages plus the
dilated stage, then `Normalize(filters[3], 20)` (an `IndexError` when
`filters` is shorter than 4) and `Normalize(1024, 8)`. -/
def VGGAtrousBase.construct (layers filters : List Nat) (batch_norm : Bool) :
    Except PyErr VGGAtrousBaseNet :=
  if layers.length = filters.length then do
    let stages := (List.zip layers filters).map (fun lf => vggStage batch_norm lf.1 lf.2)
      ++ [dilatedStage batch_norm]
    let f3 ← ofOption PyErr.indexError filters[3]?
    pure ⟨stages, (f3, 20), (1024, 8)⟩
  else Except.error PyErr.assertionError

/-- One extra stage: for each `(f, k, s, p)` in its configuration, a
`Conv2D(f, k, s, p)` followed by optional batch norm and ReLU
(`VGGAtrousExtractor.__init__`, loop over `extras`). -/
def extraStage (batch_norm : Bool) (config : List (Nat × Nat × Nat × Nat)) : List Layer :=
  config.foldl
    (fun acc c =>
      acc ++ ([Layer.conv c.1 c.2.1 c.2.2.1 c.2.2.2 1] ++ convBN batch_norm ++ [Layer.relu])) []

/-- `self.last_layer_trans`: 3 repetitions of
{3x3 conv, stride 1, padding 1, 256 channels} + optional batch norm + ReLU. -/
def lastLayerTransSeq (batch_norm : Bool) : List Layer :=
  (List.range 3).foldl
    (fun acc _ => acc ++ ([Layer.conv 256 3 1 1 1] ++ convBN batch_norm ++ [Layer.relu])) []

/-- One branch of `self.transitions`: 3x3 conv to 256 channels,
optional batch norm, ReLU, a second 3x3 conv to 256 channels, optional
batch norm, and no activation after the second convolution. -/
def transitionSeq (batch_norm : Bool) : List Layer :=
  [Layer.conv 256 3 1 1 1] ++ convBN batch_norm ++ [Layer.relu] ++
  [Layer.conv 256 3 1 1 1] ++ convBN batch_norm

/-- One block of `self.fusions`: 3x3 conv to 256 channels, optional
batch norm, ReLU. -/
def fusionSeq (batch_norm : Bool) : List Layer :=
  [Layer.conv 256 3 1 1 1] ++ convBN batch_norm ++ [Layer.relu]

/-- Everything `VGGAtrousExtractor.__init__` builds: the base network
plus the extra stages and the transition / fusion sub-networks. -/
structure VGGAtrousExtractorNet where
  stages : List (List Layer)
  norm4 : Nat × Nat
  norm5 : Nat × Nat
  extras : List (List Layer)
  last_layer_trans : List Layer
  transitions : List (List Layer)
  fusions : List (List Layer)
deriving DecidableEq, Repr

/-- `VGGAtrousExtractor.__init__`: run the base constructor, then
build one extra stage per entry of `extras`, the `last_layer_trans`
sequence, and 3 transition and 3 fusion branches. -/
def VGGAtrousExtractor.construct (layers filters : List Nat)
    (extras : List (List (Nat × Nat × Nat × Nat))) (batch_norm : Bool) :
    Except PyErr VGGAtrousExtractorNet := do
  let base ← VGGAtrousBase.construct layers filters batch_norm
  pure ⟨base.stages, base.norm4, base.norm5,
        extras.map (extraStage batch_norm),
        lastLayerTransSeq batch_norm,
        List.replicate 3 (transitionSeq batch_norm),
        List.replicate 3 (fusionSeq batch_norm)⟩

/-- Symbolic feature maps: one constructor per tensor operation used
by `VGGAtrousExtractor.hybrid_forward`. -/
inductive FMap where
  | input : FMap
  | scaleInput (x : FMap) : FMap
  | applySeq (block : List Layer) (x : FMap) : FMap
  | applyNorm (n_channel initial : Nat) (x : FMap) : FMap
  | pool (kernel stride pad : Nat) (x : FMap) : FMap
  | upsample (stride : Nat) (x : FMap) : FMap
  | reluAdd (a b : FMap) : FMap
deriving DecidableEq, Repr

/-- The output dictionary of the forward pass.  `ARM_features` holds
tensors; the `ODM_features` list starts as `[None] * 4`, so its
elements are tensors-or-`None`. -/
structure Outputs where
  ARM_features : List FMap
  ODM_features : List (Option FMap)
deriving DecidableEq, Repr

/-- The returned Python dict, literally
`{"ARM_features": [...], "ODM_features": [...]}`. -/
def Outputs.toDict (o : Outputs) : List (String × List (Option FMap)) :=
  [("ARM_features", o.ARM_features.map some), ("ODM_features", o.ODM_features)]

/-- `for stage in self.stages[:3]: x = stage(x); x = Pooling(2x2, stride 2)`. -/
def stageLoop3 (stages : List (List Layer)) (x : FMap) : FMap :=
  (stages.take 3).foldl (fun acc s => FMap.pool 2 2 0 (FMap.applySeq s acc)) x

/-- `for extra in self.extras: x = extra(x); ARM_features.append(x)`. -/
def extrasLoop (extras : List (List Layer)) (x : FMap) (arm : List FMap) :
    FMap × List FMap :=
  extras.foldl (fun p e => (FMap.applySeq e p.1, p.2 ++ [FMap.applySeq e p.1])) (x, arm)

/-- `outputs["ODM_features"] = [None] * 4`. -/
def odmInit : List (Option FMap) := [none, none, none, none]

/-- One iteration of the top-down loop `for i in range(3, 0, -1)`:
read `ODM_features[i]` and `ARM_features[i-1]`, upsample the deep
feature (crashing if the slot still holds `None`), apply
`transitions[i-1]` to the shallow feature, and store the ReLU of the
element-wise sum into `ODM_features[i-1]`. -/
def odmStep (transitions : List (List Layer)) (arm : List FMap) (i : Int)
    (odm : List (Option FMap)) : Except PyErr (List (Option FMap)) := do
  let deepOpt ← ofOption PyErr.indexError (pyGet odm i)
  let shallow ← ofOption PyErr.indexError (pyGet arm (i - 1))
  let deep ← ofOption PyErr.noneTypeError deepOpt
  let t ← ofOption PyErr.indexError (pyGet transitions (i - 1))
  ofOption PyErr.indexError
    (pySet odm (i - 1) (some (FMap.reluAdd (FMap.upsample 2 deep) (FMap.applySeq t shallow))))

/-- One iteration of `for i in range(3):
ODM_features[i] = fusions[i](ODM_features[i])`. -/
def fusionStep (fusions : List (List Layer)) (i : Int)
    (odm : List (Option FMap)) : Except PyErr (List (Option FMap)) := do
  let f ← ofOption PyErr.indexError (pyGet fusions i)
  let curOpt ← ofOption PyErr.indexError (pyGet odm i)
  let cur ← ofOption PyErr.noneTypeError curOpt
  ofOption PyErr.indexError (pySet odm i (some (FMap.applySeq f cur)))

/-- The body of `hybrid_forward` after the stage-count assertion. -/
def forwardBody (net : VGGAtrousExtractorNet) (x0 : FMap) : Except PyErr Outputs := do
  let x := FMap.scaleInput x0
  let x := stageLoop3 net.stages x
  let s3 ← ofOption PyErr.indexError net.stages[3]?
  let x := FMap.applySeq s3 x
  let n4 := FMap.applyNorm net.norm4.1 net.norm4.2 x
  let arm := [n4]
  let x := FMap.pool 2 2 0 x
  let s4 ← ofOption PyErr.indexError net.stages[4]?
  let x := FMap.applySeq s4 x
  let x := FMap.pool 3 1 1 x
  let s5 ← ofOption PyErr.indexError net.stages[5]?
  let x := FMap.applySeq s5 x
  let n5 := FMap.applyNorm net.norm5.1 net.norm5.2 x
  let arm := arm ++ [n5]
  let arm := (extrasLoop net.extras x arm).2
  let armLast ← ofOption PyErr.indexError (pyGet arm (-1))
  let odm ← ofOption PyErr.indexError
    (pySet odmInit (-1) (some (FMap.applySeq net.last_layer_trans armLast)))
  let odm ← ([3, 2, 1] : List Int).foldlM (fun o i => odmStep net.transitions arm i o) odm
  let odm ← ([0, 1, 2] : List Int).foldlM (fun o i => fusionStep net.fusions i o) odm
  pure ⟨arm, odm⟩

/-- `VGGAtrousExtractor.hybrid_forward`: the hard assertion
`assert len(self.stages) == 6`, then the forward computation. -/
def hybrid_forward (net : VGGAtrousExtractorNet) (x : FMap) : Except PyErr Outputs :=
  if net.stages.length = 6 then forwardBody net x else Except.error PyErr.assertionError

/-- The `vgg_spec` preset table. -/
def vgg_spec (num_layers : Nat) : Option (List Nat × List Nat) :=
  match num_layers with
  | 11 => some ([1, 1, 2, 2, 2], [64, 128, 256, 512, 512])
  | 13 => some ([2, 2, 2, 2, 2], [64, 128, 256, 512, 512])
  | 16 => some ([2, 2, 3, 3, 3], [64, 128, 256, 512, 512])
  | 19 => some ([2, 2, 4, 4, 4], [64, 128, 256, 512, 512])
  | _ => none

/-- The `extra_spec` preset table. -/
def extra_spec (im_size : Nat) : Option (List (List (Nat × Nat × Nat × Nat))) :=
  match im_size with
  | 320 => some [[(256, 1, 1, 0), (512, 3, 2, 1)], [(128, 1, 1, 0), (256, 3, 2, 1)]]
  | 512 => some [[(256, 1, 1, 0), (512, 3, 2, 1)], [(128, 1, 1, 0), (256, 3, 2, 1)]]
  | _ => none

/-- `get_vgg_atrous_extractor` (weight loading is out of scope): look
up the two preset tables (raising `KeyError` on an unknown key) and
construct the extractor. -/
def get_vgg_atrous_extractor (num_layers im_size : Nat) (batch_norm : Bool) :
    Except PyErr VGGAtrousExtractorNet := do
  let lf ← ofOption PyErr.keyError (vgg_spec num_layers)
  let extras ← ofOption PyErr.keyError (extra_spec im_size)
  VGGAtrousExtractor.construct lf.1 lf.2 extras batch_norm

/-- `vgg16_atrous_320`. -/
def vgg16_atrous_320 (batch_norm : Bool) : Except PyErr VGGAtrousExtractorNet :=
  get_vgg_atrous_extractor 16 320 batch_norm

/-- `vgg16_atrous_512`. -/
def vgg16_atrous_512 (batch_norm : Bool) : Except PyErr VGGAtrousExtractorNet :=
  get_vgg_atrous_extractor 16 512 batch_norm

/-- A concrete 4-D array (batch, channel, height, width) with entries
in `α`, for the element-level semantics of `_upsample`.  `val` is a
total function; only indices below the dims are meaningful. -/
structure NDArray (α : Type) where
  n : Nat
  c : Nat
  h : Nat
  w : Nat
  val : Nat → Nat → Nat → Nat → α

/-- mxnet `x.repeat(axis=-1, repeats=r)`: each element is repeated `r`
times consecutively along the width axis, so output column `j` reads
input column `j / r`. -/
def NDArray.repeatW {α : Type} (x : NDArray α) (repeats : Nat) : NDArray α :=
  ⟨x.n, x.c, x.h, x.w * repeats, fun a b i j => x.val a b i (j / repeats)⟩

/-- mxnet `x.repeat(axis=-2, repeats=r)`: the same along the height axis. -/
def NDArray.repeatH {α : Type} (x : NDArray α) (repeats : Nat) : NDArray α :=
  ⟨x.n, x.c, x.h * repeats, x.w, fun a b i j => x.val a b (i / repeats) j⟩

/-- `_upsample(x, stride)`:
`x.repeat(axis=-1, repeats=stride).repeat(axis=-2, repeats=stride)`. -/
def _upsample {α : Type} (x : NDArray α) (stride : Nat := 2) : NDArray α :=
  (x.repeatW stride).repeatH stride

/-! ### Helper lemmas -/

@[simp]
theorem ofOption_some {α : Type} (e : PyErr) (a : α) : ofOption e (some a) = Except.ok a := rfl

@[simp]
theorem ofOption_none {α : Type} (e : PyErr) : ofOption (α := α) e none = Except.error e := rfl

@[simp]
theorem error_bind {ε α β : Type} (e : ε) (f : α → Except ε β) :
    (Except.error e : Except ε α) >>= f = Except.error e := rfl

@[simp]
theorem ok_bind {ε α β : Type} (a : α) (f : α → Except ε β) :
    (Except.ok a : Except ε α) >>= f = f a := rfl

/-- Characterization of a successful `VGGAtrousExtractor` construction:
the two hyper-parameter lists have equal length, `filters` has a 4th
entry, and the resulting network record is fully determined. -/
theorem construct_ok_iff (layers filters : List Nat)
    (extras : List (List (Nat × Nat × Nat × Nat))) (batch_norm : Bool)
    (net : VGGAtrousExtractorNet) :
    VGGAtrousExtractor.construct layers filters extras batch_norm = Except.ok net ↔
      layers.length = filters.length ∧ ∃ f3, filters[3]? = some f3 ∧
        net = ⟨(List.zip layers filters).map (fun lf => vggStage batch_norm lf.1 lf.2)
                 ++ [dilatedStage batch_norm],
               (f3, 20), (1024, 8),
               extras.map (extraStage batch_norm),
               lastLayerTransSeq batch_norm,
               List.replicate 3 (transitionSeq batch_norm),
               List.replicate 3 (fusionSeq batch_norm)⟩ := by
  unfold VGGAtrousExtractor.construct VGGAtrousBase.construct
  by_cases h : layers.length = filters.length
  · rw [if_pos h]
    cases hf : filters[3]? with
    | none =>
      simp only [hf, bind, Except.bind, ofOption_none, pure]
      simp [h]
    | some f3 =>
      simp only [hf, bind, Except.bind, ofOption_some, pure, Except.pure]
      constructor
      · intro hok
        exact ⟨h, f3, rfl, (Except.ok.inj hok).symm⟩
      · rintro ⟨-, f3', hf3', rfl⟩
        cases hf3'
        rfl
  · rw [if_neg h]
    simp [h]

theorem extrasLoop_snd_length (extras : List (List Layer)) (x : FMap) (arm : List FMap) :
    ((extrasLoop extras x arm).2).length = arm.length + extras.length := by
  induction extras generalizing x arm with
  | nil => simp [extrasLoop]
  | cons e es ih =>
    have := ih (FMap.applySeq e x) (arm ++ [FMap.applySeq e x])
    simp only [extrasLoop, List.foldl] at this ⊢
    rw [this]
    simp
    omega

theorem pySet_some_length {α : Type} (l : List α) (i : Int) (v : α) (l' : List α)
    (h : pySet l i v = some l') : l'.length = l.length := by
  unfold pySet at h
  split at h
  · split at h
    · cases h; simp
    · cases h
  · split at h
    · cases h; simp
    · cases h

theorem odmStep_ok_length (transitions : List (List Layer)) (arm : List FMap) (i : Int)
    (odm odm' : List (Option FMap))
    (h : odmStep transitions arm i odm = Except.ok odm') : odm'.length = odm.length := by
  unfold odmStep at h
  cases h1 : pyGet odm i with
  | none => rw [h1] at h; simp at h
  | some deepOpt =>
    rw [h1] at h
    rw [ofOption_some, ok_bind] at h
    cases h2 : pyGet arm (i - 1) with
    | none => rw [h2] at h; simp at h
    | some shallow =>
      rw [h2] at h
      rw [ofOption_some, ok_bind] at h
      cases deepOpt with
      | none => simp at h
      | some deep =>
        rw [ofOption_some, ok_bind] at h
        cases h3 : pyGet transitions (i - 1) with
        | none => rw [h3] at h; simp at h
        | some t =>
          rw [h3] at h
          rw [ofOption_some, ok_bind] at h
          cases h4 : pySet odm (i - 1)
              (some (FMap.reluAdd (FMap.upsample 2 deep) (FMap.applySeq t shallow))) with
          | none => rw [h4] at h; simp at h
          | some l' =>
            rw [h4] at h
            rw [ofOption_some] at h
            cases h
            exact pySet_some_length _ _ _ _ h4

theorem fusionStep_ok_length (fusions : List (List Layer)) (i : Int)
    (odm odm' : List (Option FMap))
    (h : fusionStep fusions i odm = Except.ok odm') : odm'.length = odm.length := by
  unfold fusionStep at h
  cases h1 : pyGet fusions i with
  | none => rw [h1] at h; simp at h
  | some f =>
    rw [h1] at h
    rw [ofOption_some, ok_bind] at h
    cases h2 : pyGet odm i with
    | none => rw [h2] at h; simp at h
    | some curOpt =>
      rw [h2] at h
      rw [ofOption_some, ok_bind] at h
      cases curOpt with
      | none => simp at h
      | some cur =>
        rw [ofOption_some, ok_bind] at h
        cases h4 : pySet odm i (some (FMap.applySeq f cur)) with
        | none => rw [h4] at h; simp at h
        | some l' =>
          rw [h4] at h
          rw [ofOption_some] at h
          cases h
          exact pySet_some_length _ _ _ _ h4

/-! ### Claim theorems -/

/-- Claim C4: the upsampling used in the top-down fusion is exact
nearest-neighbor replication with stride 2: on an (N, C, H, W) input
the output has shape (N, C, 2H, 2W), and the output value at spatial
position (2i+a, 2j+b) for a, b in {0, 1} is exactly the input value at
(i, j) — no interpolation. -/
theorem upsample_nearest_neighbor {α : Type} (x : NDArray α) (n c i j a b : Nat)
    (ha : a < 2) (hb : b < 2) :
    (_upsample x 2).n = x.n ∧ (_upsample x 2).c = x.c ∧
    (_upsample x 2).h = x.h * 2 ∧ (_upsample x 2).w = x.w * 2 ∧
    (_upsample x 2).val n c (2 * i + a) (2 * j + b) = x.val n c i j := by
  refine ⟨rfl, rfl, rfl, rfl, ?_⟩
  show x.val n c ((2 * i + a) / 2) ((2 * j + b) / 2) = x.val n c i j
  have h1 : (2 * i + a) / 2 = i := by omega
  have h2 : (2 * j + b) / 2 = j := by omega
  rw [h1, h2]

/-- A small concrete array used to instantiate hypothesis-bearing
theorems about `_upsample`. -/
def ndDemo : NDArray Int :=
  ⟨1, 1, 2, 2, fun n c i j => (n : Int) + 2 * c + 3 * i + 5 * j⟩

/-- Witness for claim C4 at the concrete array `ndDemo`, output
position (2·1+1, 2·0+1). -/
theorem upsample_nearest_neighbor_witness :
    (_upsample ndDemo 2).n = ndDemo.n ∧ (_upsample ndDemo 2).c = ndDemo.c ∧
    (_upsample ndDemo 2).h = ndDemo.h * 2 ∧ (_upsample ndDemo 2).w = ndDemo.w * 2 ∧
    (_upsample ndDemo 2).val 0 0 (2 * 1 + 1) (2 * 0 + 1) = ndDemo.val 0 0 1 0 :=
  upsample_nearest_neighbor ndDemo 0 0 1 0 1 1 (by decide) (by decide)

/-- Claim C6: whenever `len(layers) != len(filters)`, constructing
`VGGAtrousBase` (and hence `VGGAtrousExtractor`) fails with the
configuration assertion error, before any layer is built. -/
theorem construct_len_mismatch_fails (layers filters : List Nat)
    (extras : List (List (Nat × Nat × Nat × Nat))) (batch_norm : Bool)
    (h : layers.length ≠ filters.length) :
    VGGAtrousBase.construct layers filters batch_norm = Except.error PyErr.assertionError ∧
    VGGAtrousExtractor.construct layers filters extras batch_norm =
      Except.error PyErr.assertionError := by
  have hb : VGGAtrousBase.construct layers filters batch_norm =
      Except.error PyErr.assertionError := by
    unfold VGGAtrousBase.construct
    rw [if_neg h]
  refine ⟨hb, ?_⟩
  unfold VGGAtrousExtractor.construct
  rw [show (do
      let base ← VGGAtrousBase.construct layers filters batch_norm
      pure (⟨base.stages, base.norm4, base.norm5,
        extras.map (extraStage batch_norm),
        lastLayerTransSeq batch_norm,
        List.replicate 3 (transitionSeq batch_norm),
        List.replicate 3 (fusionSeq batch_norm)⟩ : VGGAtrousExtractorNet) :
      Except PyErr VGGAtrousExtractorNet) =
      VGGAtrousBase.construct layers filters batch_norm >>= _ from rfl, hb, error_bind]

/-- Witness for claim C6: a 1-element `layers` list against an empty
`filters` list. -/
theorem construct_len_mismatch_fails_witness :
    VGGAtrousBase.construct [1] [] false = Except.error PyErr.assertionError ∧
    VGGAtrousExtractor.construct [1] [] [] false = Except.error PyErr.assertionError :=
  construct_len_mismatch_fails [1] [] [] false (by decide)

/-- Claim C5: every constructed extractor has exactly 3 transition
branches, each consisting of a 3x3 stride-1 padding-1 convolution to
256 channels, optional batch norm, ReLU, a second such convolution,
and optional batch norm — with no activation after the second
convolution. -/
theorem transitions_structure (layers filters : List Nat)
    (extras : List (List (Nat × Nat × Nat × Nat))) (batch_norm : Bool)
    (net : VGGAtrousExtractorNet)
    (hok : VGGAtrousExtractor.construct layers filters extras batch_norm = Except.ok net) :
    net.transitions = List.replicate 3 (transitionSeq batch_norm) ∧
    transitionSeq false =
      [Layer.conv 256 3 1 1 1, Layer.relu, Layer.conv 256 3 1 1 1] ∧
    transitionSeq true =
      [Layer.conv 256 3 1 1 1, Layer.batchNorm, Layer.relu,
       Layer.conv 256 3 1 1 1, Layer.batchNorm] ∧
    (transitionSeq batch_norm).getLast? ≠ some Layer.relu := by
  obtain ⟨-, f3, -, rfl⟩ := (construct_ok_iff _ _ _ _ _).mp hok
  exact ⟨rfl, by decide, by decide, by cases batch_norm <;> decide⟩

/-- Witness for claim C5 at the vgg16/320 configuration with batch
normalization enabled. -/
theorem transitions_structure_witness :
    ∃ net, VGGAtrousExtractor.construct [2, 2, 3, 3, 3] [64, 128, 256, 512, 512]
        [[(256, 1, 1, 0), (512, 3, 2, 1)], [(128, 1, 1, 0), (256, 3, 2, 1)]] true =
        Except.ok net ∧
      (net.transitions = List.replicate 3 (transitionSeq true) ∧
       transitionSeq false =
         [Layer.conv 256 3 1 1 1, Layer.relu, Layer.conv 256 3 1 1 1] ∧
       transitionSeq true =
         [Layer.conv 256 3 1 1 1, Layer.batchNorm, Layer.relu,
          Layer.conv 256 3 1 1 1, Layer.batchNorm] ∧
       (transitionSeq true).getLast? ≠ some Layer.relu) :=
  match h : VGGAtrousExtractor.construct [2, 2, 3, 3, 3] [64, 128, 256, 512, 512]
      [[(256, 1, 1, 0), (512, 3, 2, 1)], [(128, 1, 1, 0), (256, 3, 2, 1)]] true with
  | Except.ok net => ⟨net, rfl, transitions_structure _ _ _ _ net h⟩
  | Except.error _ => Except.noConfusion h

/-- Claim C8: the forward pass is deterministic.  In this embedding
`hybrid_forward` is a pure function of the network record and the
input tensor — there is no other state it can read or write — so two
invocations on identical inputs with unchanged parameters yield
identical outputs. -/
theorem forward_deterministic (net : VGGAtrousExtractorNet) (x y : FMap) (hxy : x = y) :
    hybrid_forward net x = hybrid_forward net y := by rw [hxy]

/-- A small concrete network record used to instantiate
hypothesis-bearing theorems about the forward pass. -/
def demoNet : VGGAtrousExtractorNet :=
  ⟨List.replicate 6 [], (512, 20), (1024, 8), [[], []],
   lastLayerTransSeq false, List.replicate 3 (transitionSeq false),
   List.replicate 3 (fusionSeq false)⟩

/-- Witness for claim C8: two identical invocations on `demoNet`. -/
theorem forward_deterministic_witness :
    hybrid_forward demoNet FMap.input = hybrid_forward demoNet FMap.input :=
  forward_deterministic demoNet FMap.input FMap.input rfl

/-- Claim C9: the extra-stage presets for image sizes 320 and 512 are
identical, `vgg16_atrous_320` and `vgg16_atrous_512` construct the
same network for the same keyword arguments, and each network has two
extra stages: a 1x1 conv to 256 channels then a 3x3 stride-2 padding-1
conv to 512 channels, and a 1x1 conv to 128 channels then a 3x3
stride-2 padding-1 conv to 256 channels (each convolution followed by
optional batch norm and ReLU). -/
theorem vgg16_320_512_identical (batch_norm : Bool) (net : VGGAtrousExtractorNet)
    (hok : vgg16_atrous_320 batch_norm = Except.ok net) :
    extra_spec 320 = extra_spec 512 ∧
    vgg16_atrous_320 batch_norm = vgg16_atrous_512 batch_norm ∧
    net.extras =
      [[Layer.conv 256 1 1 0 1] ++ convBN batch_norm ++ [Layer.relu] ++
         [Layer.conv 512 3 2 1 1] ++ convBN batch_norm ++ [Layer.relu],
       [Layer.conv 128 1 1 0 1] ++ convBN batch_norm ++ [Layer.relu] ++
         [Layer.conv 256 3 2 1 1] ++ convBN batch_norm ++ [Layer.relu]] := by
  refine ⟨rfl, rfl, ?_⟩
  have hok' : VGGAtrousExtractor.construct [2, 2, 3, 3, 3] [64, 128, 256, 512, 512]
      [[(256, 1, 1, 0), (512, 3, 2, 1)], [(128, 1, 1, 0), (256, 3, 2, 1)]] batch_norm =
      Except.ok net := hok
  obtain ⟨-, f3, -, rfl⟩ := (construct_ok_iff _ _ _ _ _).mp hok'
  show [extraStage batch_norm [(256, 1, 1, 0), (512, 3, 2, 1)],
        extraStage batch_norm [(128, 1, 1, 0), (256, 3, 2, 1)]] = _
  cases batch_norm <;> rfl

/-- Witness for claim C9 at `batch_norm := false`. -/
theorem vgg16_320_512_identical_witness :
    ∃ net, vgg16_atrous_320 false = Except.ok net ∧
      (extra_spec 320 = extra_spec 512 ∧
       vgg16_atrous_320 false = vgg16_atrous_512 false ∧
       net.extras =
         [[Layer.conv 256 1 1 0 1] ++ convBN false ++ [Layer.relu] ++
            [Layer.conv 512 3 2 1 1] ++ convBN false ++ [Layer.relu],
          [Layer.conv 128 1 1 0 1] ++ convBN false ++ [Layer.relu] ++
            [Layer.conv 256 3 2 1 1] ++ convBN false ++ [Layer.relu]]) :=
  match h : vgg16_atrous_320 false with
  | Except.ok net =>
    have t := vgg16_320_512_identical false net h
    ⟨net, rfl, t.1, h ▸ t.2.1, t.2.2⟩
  | Except.error _ => Except.noConfusion h

/-- Claim C1: in the forward pass, the deepest ODM feature is
`last_layer_trans(ARM_features[3])` with no upsampling; for i = 3 down
to 1, the next ODM feature is
`ReLU(upsample2x(ODM_features[i]) + transitions[i-1](ARM_features[i-1]))`;
and the fusion blocks are applied only to ODM indices 0, 1, 2 — the
deepest ODM feature is never passed through a fusion block.  Stated
over any 6-stage, 2-extra network (the shape every constructed
extractor has), with a0..v2 naming the four ARM features. -/
theorem odm_topdown_structure (s0 s1 s2 s3 s4 s5 e0 e1 llt t0 t1 t2 f0 f1 f2 : List Layer)
    (n4 n5 : Nat × Nat) (x : FMap) :
    ∃ a0 a1 v1 v2 : FMap,
      hybrid_forward ⟨[s0, s1, s2, s3, s4, s5], n4, n5, [e0, e1], llt,
          [t0, t1, t2], [f0, f1, f2]⟩ x =
        Except.ok
          ⟨[a0, a1, v1, v2],
           [some (FMap.applySeq f0
              (FMap.reluAdd
                (FMap.upsample 2
                  (FMap.reluAdd
                    (FMap.upsample 2
                      (FMap.reluAdd (FMap.upsample 2 (FMap.applySeq llt v2))
                        (FMap.applySeq t2 v1)))
                    (FMap.applySeq t1 a1)))
                (FMap.applySeq t0 a0))),
            some (FMap.applySeq f1
              (FMap.reluAdd
                (FMap.upsample 2
                  (FMap.reluAdd (FMap.upsample 2 (FMap.applySeq llt v2))
                    (FMap.applySeq t2 v1)))
                (FMap.applySeq t1 a1))),
            some (FMap.applySeq f2
              (FMap.reluAdd (FMap.upsample 2 (FMap.applySeq llt v2))
                (FMap.applySeq t2 v1))),
            some (FMap.applySeq llt v2)]⟩ :=
  ⟨_, _, _, _, rfl⟩

/-- Claim C2: for every input, the returned `ARM_features` list
contains, in order: the stage-4 output (`u3`, the running tensor after
stages 0-3 with their poolings) passed through the scale-20 Normalize
layer; the dilated stage-6 output (`u5`) passed through the scale-8
Normalize layer; the output of the first extra stage; and the output
of the second extra stage. -/
theorem arm_features_order (layers filters : List Nat)
    (c0 c1 : List (Nat × Nat × Nat × Nat)) (batch_norm : Bool)
    (net : VGGAtrousExtractorNet) (x : FMap)
    (hok : VGGAtrousExtractor.construct layers filters [c0, c1] batch_norm = Except.ok net)
    (h5 : layers.length = 5) :
    ∃ u3 u5 out,
      u3 = FMap.applySeq net.stages[3]! (stageLoop3 net.stages (FMap.scaleInput x)) ∧
      u5 = FMap.applySeq net.stages[5]!
             (FMap.pool 3 1 1 (FMap.applySeq net.stages[4]! (FMap.pool 2 2 0 u3))) ∧
      net.stages[5]! = dilatedStage batch_norm ∧
      net.norm4 = (filters[3]!, 20) ∧
      net.norm5 = (1024, 8) ∧
      hybrid_forward net x = Except.ok out ∧
      out.ARM_features =
        [FMap.applyNorm (filters[3]!) 20 u3,
         FMap.applyNorm 1024 8 u5,
         FMap.applySeq (extraStage batch_norm c0) u5,
         FMap.applySeq (extraStage batch_norm c1)
           (FMap.applySeq (extraStage batch_norm c0) u5)] := by
  obtain ⟨hlen, f3, hf3, rfl⟩ := (construct_ok_iff _ _ _ _ _).mp hok
  rw [h5] at hlen
  match layers, h5 with
  | [l0, l1, l2, l3, l4], _ =>
    match filters, hlen.symm with
    | [g0, g1, g2, g3, g4], _ =>
      cases hf3
      exact ⟨_, _, _, rfl, rfl, rfl, rfl, rfl, rfl, rfl⟩

/-- Witness for claim C2 at the vgg16/320 configuration,
`batch_norm := false`, on the symbolic input. -/
theorem arm_features_order_witness :
    ∃ net, VGGAtrousExtractor.construct [2, 2, 3, 3, 3] [64, 128, 256, 512, 512]
        [[(256, 1, 1, 0), (512, 3, 2, 1)], [(128, 1, 1, 0), (256, 3, 2, 1)]] false =
        Except.ok net ∧
      ∃ u3 u5 out,
        u3 = FMap.applySeq net.stages[3]! (stageLoop3 net.stages (FMap.scaleInput FMap.input)) ∧
        u5 = FMap.applySeq net.stages[5]!
               (FMap.pool 3 1 1 (FMap.applySeq net.stages[4]! (FMap.pool 2 2 0 u3))) ∧
        net.stages[5]! = dilatedStage false ∧
        net.norm4 = (([64, 128, 256, 512, 512] : List Nat)[3]!, 20) ∧
        net.norm5 = (1024, 8) ∧
        hybrid_forward net FMap.input = Except.ok out ∧
        out.ARM_features =
          [FMap.applyNorm (([64, 128, 256, 512, 512] : List Nat)[3]!) 20 u3,
           FMap.applyNorm 1024 8 u5,
           FMap.applySeq (extraStage false [(256, 1, 1, 0), (512, 3, 2, 1)]) u5,
           FMap.applySeq (extraStage false [(128, 1, 1, 0), (256, 3, 2, 1)])
             (FMap.applySeq (extraStage false [(256, 1, 1, 0), (512, 3, 2, 1)]) u5)] :=
  match h : VGGAtrousExtractor.construct [2, 2, 3, 3, 3] [64, 128, 256, 512, 512]
      [[(256, 1, 1, 0), (512, 3, 2, 1)], [(128, 1, 1, 0), (256, 3, 2, 1)]] false with
  | Except.ok net =>
    ⟨net, rfl,
     arm_features_order [2, 2, 3, 3, 3] [64, 128, 256, 512, 512]
       [(256, 1, 1, 0), (512, 3, 2, 1)] [(128, 1, 1, 0), (256, 3, 2, 1)] false net
       FMap.input h (by decide)⟩
  | Except.error _ => Except.noConfusion h

/-- Claim C3: for every network this module constructs (any preset
`num_layers` and `im_size`) and every input, the forward pass succeeds
and returns a mapping with exactly the two keys `"ARM_features"` and
`"ODM_features"`, each holding an ordered list of exactly 4 tensors
(in particular no `ODM` slot still holds `None`). -/
theorem output_contract (num_layers im_size : Nat) (batch_norm : Bool) (x : FMap)
    (hnl : num_layers ∈ ([11, 13, 16, 19] : List Nat))
    (him : im_size ∈ ([320, 512] : List Nat)) :
    ∃ net out,
      get_vgg_atrous_extractor num_layers im_size batch_norm = Except.ok net ∧
      hybrid_forward net x = Except.ok out ∧
      out.toDict.map Prod.fst = ["ARM_features", "ODM_features"] ∧
      out.ARM_features.length = 4 ∧
      out.ODM_features.length = 4 ∧
      out.ODM_features.all (fun o => o.isSome) = true := by
  fin_cases hnl <;> fin_cases him <;>
    exact ⟨_, _, rfl, rfl, rfl, rfl, rfl, rfl⟩

/-- Witness for claim C3 at `num_layers := 16`, `im_size := 320`,
`batch_norm := false`, on the symbolic input. -/
theorem output_contract_witness :
    ∃ net out,
      get_vgg_atrous_extractor 16 320 false = Except.ok net ∧
      hybrid_forward net FMap.input = Except.ok out ∧
      out.toDict.map Prod.fst = ["ARM_features", "ODM_features"] ∧
      out.ARM_features.length = 4 ∧
      out.ODM_features.length = 4 ∧
      out.ODM_features.all (fun o => o.isSome) = true :=
  output_contract 16 320 false FMap.input (by decide) (by decide)

/-- Claim C7: the forward pass asserts exactly 6 base stages before
computing anything.  Every construction with `len(layers) = 5` yields
`len(layers) + 1 = 6` stages, so the assertion holds and the failure
branch is unreachable (the forward pass runs its body); all four
`vgg_spec` presets have 5-entry layer lists; and on any network with a
stage count other than 6 the forward pass fails immediately with the
assertion error. -/
theorem stage_count_assertion (layers filters : List Nat)
    (extras : List (List (Nat × Nat × Nat × Nat))) (batch_norm : Bool)
    (net : VGGAtrousExtractorNet)
    (hok : VGGAtrousExtractor.construct layers filters extras batch_norm = Except.ok net)
    (h5 : layers.length = 5) :
    net.stages.length = 6 ∧
    (∀ y, hybrid_forward net y = forwardBody net y) ∧
    (∀ (m : VGGAtrousExtractorNet) (y : FMap), m.stages.length ≠ 6 →
      hybrid_forward m y = Except.error PyErr.assertionError) ∧
    (∀ p ∈ ([11, 13, 16, 19] : List Nat), ∃ lf, vgg_spec p = some lf ∧ lf.1.length = 5) := by
  obtain ⟨hlen, f3, hf3, rfl⟩ := (construct_ok_iff _ _ _ _ _).mp hok
  have h6 : (((List.zip layers filters).map
      (fun lf => vggStage batch_norm lf.1 lf.2)) ++ [dilatedStage batch_norm]).length = 6 := by
    simp [List.length_zip]
    omega
  refine ⟨h6, ?_, ?_, by decide⟩
  · intro y
    unfold hybrid_forward
    rw [if_pos h6]
  · intro m y hm
    unfold hybrid_forward
    rw [if_neg hm]

/-- Witness for claim C7 at the vgg16/320 configuration. -/
theorem stage_count_assertion_witness :
    ∃ net, VGGAtrousExtractor.construct [2, 2, 3, 3, 3] [64, 128, 256, 512, 512]
        [[(256, 1, 1, 0), (512, 3, 2, 1)], [(128, 1, 1, 0), (256, 3, 2, 1)]] false =
        Except.ok net ∧
      (net.stages.length = 6 ∧
       (∀ y, hybrid_forward net y = forwardBody net y) ∧
       (∀ (m : VGGAtrousExtractorNet) (y : FMap), m.stages.length ≠ 6 →
         hybrid_forward m y = Except.error PyErr.assertionError) ∧
       (∀ p ∈ ([11, 13, 16, 19] : List Nat), ∃ lf, vgg_spec p = some lf ∧ lf.1.length = 5)) :=
  match h : VGGAtrousExtractor.construct [2, 2, 3, 3, 3] [64, 128, 256, 512, 512]
      [[(256, 1, 1, 0), (512, 3, 2, 1)], [(128, 1, 1, 0), (256, 3, 2, 1)]] false with
  | Except.ok net =>
    ⟨net, rfl, stage_count_assertion [2, 2, 3, 3, 3] [64, 128, 256, 512, 512]
      [[(256, 1, 1, 0), (512, 3, 2, 1)], [(128, 1, 1, 0), (256, 3, 2, 1)]] false net h
      (by decide)⟩
  | Except.error _ => Except.noConfusion h

/-- Claim C10 counterexample: a configuration with fewer than 2 extra
stages on which the fusion loop does NOT read out of range.  With
exactly one extra stage the forward pass succeeds (every ODM slot gets
filled by the fusion loop), returning 3 ARM features — so "a
configuration with fewer extras makes the fusion loop read out of
range" is false as stated. -/
theorem extras_contract_counterexample :
    ∃ net out,
      VGGAtrousExtractor.construct [1, 1, 2, 2, 2] [64, 128, 256, 512, 512]
        [[(256, 1, 1, 0)]] false = Except.ok net ∧
      hybrid_forward net FMap.input = Except.ok out ∧
      hybrid_forward net FMap.input ≠ Except.error PyErr.indexError ∧
      out.ARM_features.length = 3 ∧
      out.ODM_features.length = 4 ∧
      out.ODM_features.all (fun o => o.isSome) = true :=
  ⟨_, _, rfl, rfl, fun hc => Except.noConfusion hc, rfl, rfl, rfl⟩

@[simp]
theorem pySet_odmInit (v : Option FMap) : pySet odmInit (-1) v = some [none, none, none, v] :=
  rfl

theorem bind_ok_inv {α β : Type} (a : Except PyErr α) (f : α → Except PyErr β) (b : β)
    (h : (a >>= f) = Except.ok b) : ∃ v, a = Except.ok v ∧ f v = Except.ok b := by
  cases a with
  | error e => simp at h
  | ok v => exact ⟨v, rfl, by simpa using h⟩

theorem ofOption_bind_ok {α β : Type} (e : PyErr) (o : Option α) (f : α → Except PyErr β)
    (b : β) (h : (ofOption e o >>= f) = Except.ok b) :
    ∃ a, o = some a ∧ f a = Except.ok b := by
  cases o with
  | none => simp at h
  | some a => exact ⟨a, rfl, by simpa using h⟩

/-- Claim C10, amended: the forward pass appends one ARM feature per
configured extra stage after the two normalized base features, so
whenever it succeeds `len(ARM_features) = 2 + len(extras)`, while the
ODM list always has exactly 4 slots; hence the 4-tensor output
contract holds exactly when the extras configuration has exactly 2
entries.  A configuration with NO extra stages makes the top-down loop
read `ARM_features[2]` out of range (an `IndexError`); with exactly
one extra stage the loop stays in range and the pass succeeds (see the
counterexample), merely violating the 4-tensor contract. -/
theorem arm_odm_length_invariant (net : VGGAtrousExtractorNet) (x : FMap) (out : Outputs)
    (hok : hybrid_forward net x = Except.ok out) :
    out.ARM_features.length = 2 + net.extras.length ∧
    out.ODM_features.length = 4 ∧
    (out.ARM_features.length = 4 ↔ net.extras.length = 2) ∧
    (∀ (m : VGGAtrousExtractorNet) (y : FMap), m.stages.length = 6 → m.extras = [] →
      hybrid_forward m y = Except.error PyErr.indexError) := by
  have main : out.ARM_features.length = 2 + net.extras.length ∧
      out.ODM_features.length = 4 := by
    unfold hybrid_forward at hok
    split at hok
    · unfold forwardBody at hok
      obtain ⟨s3, h3, hok⟩ := ofOption_bind_ok _ _ _ _ hok
      obtain ⟨s4, h4, hok⟩ := ofOption_bind_ok _ _ _ _ hok
      obtain ⟨s5, h5, hok⟩ := ofOption_bind_ok _ _ _ _ hok
      obtain ⟨armLast, hlast, hok⟩ := ofOption_bind_ok _ _ _ _ hok
      obtain ⟨odm0, hset, hok⟩ := ofOption_bind_ok _ _ _ _ hok
      obtain ⟨odmA, hfoldA, hok⟩ := bind_ok_inv _ _ _ hok
      obtain ⟨odmB, hfoldB, hok⟩ := bind_ok_inv _ _ _ hok
      simp only [List.foldlM] at hfoldA hfoldB
      obtain ⟨odm1, ho1, hfoldA⟩ := bind_ok_inv _ _ _ hfoldA
      obtain ⟨odm2, ho2, hfoldA⟩ := bind_ok_inv _ _ _ hfoldA
      obtain ⟨odm3, ho3, hfoldA⟩ := bind_ok_inv _ _ _ hfoldA
      obtain ⟨odm4, hf0, hfoldB⟩ := bind_ok_inv _ _ _ hfoldB
      obtain ⟨odm5, hf1, hfoldB⟩ := bind_ok_inv _ _ _ hfoldB
      obtain ⟨odm6, hf2, hfoldB⟩ := bind_ok_inv _ _ _ hfoldB
      have e0 : odm0.length = 4 := by
        have := pySet_some_length _ _ _ _ hset
        simpa [odmInit] using this
      have e1 := odmStep_ok_length _ _ _ _ _ ho1
      have e2 := odmStep_ok_length _ _ _ _ _ ho2
      have e3 := odmStep_ok_length _ _ _ _ _ ho3
      have eA : odmA = odm3 := by
        simp only [pure, Except.pure] at hfoldA
        exact (Except.ok.inj hfoldA).symm
      subst eA
      have e4 := fusionStep_ok_length _ _ _ _ hf0
      have e5 := fusionStep_ok_length _ _ _ _ hf1
      have e6 := fusionStep_ok_length _ _ _ _ hf2
      have eB : odmB = odm6 := by
        simp only [pure, Except.pure] at hfoldB
        exact (Except.ok.inj hfoldB).symm
      subst eB
      simp only [pure, Except.pure] at hok
      have hout := (Except.ok.inj hok).symm
      subst hout
      constructor
      · show (extrasLoop _ _ _).2.length = _
        rw [extrasLoop_snd_length]
        simp
      · show odmB.length = 4
        omega
    · simp at hok
  refine ⟨main.1, main.2, by omega, ?_⟩
  intro m y h6 he
  obtain ⟨stages, n4, n5, extras, llt, tr, fus⟩ := m
  simp only at h6 he
  subst he
  rcases stages with _ | ⟨a0, _ | ⟨a1, _ | ⟨a2, _ | ⟨a3, _ | ⟨a4, _ | ⟨a5, _ | ⟨a6, t⟩⟩⟩⟩⟩⟩⟩ <;>
    simp at h6
  rfl

/-- Witness for the amended claim C10 at a constructed 2-extra
network on the symbolic input. -/
theorem arm_odm_length_invariant_witness :
    ∃ net out,
      VGGAtrousExtractor.construct [1, 1, 2, 2, 2] [64, 128, 256, 512, 512]
        [[(256, 1, 1, 0), (512, 3, 2, 1)], [(128, 1, 1, 0), (256, 3, 2, 1)]] false =
        Except.ok net ∧
      hybrid_forward net FMap.input = Except.ok out ∧
      (out.ARM_features.length = 2 + net.extras.length ∧
       out.ODM_features.length = 4 ∧
       (out.ARM_features.length = 4 ↔ net.extras.length = 2) ∧
       (∀ (m : VGGAtrousExtractorNet) (y : FMap), m.stages.length = 6 → m.extras = [] →
         hybrid_forward m y = Except.error PyErr.indexError)) :=
  ⟨_, _, rfl, rfl, arm_odm_length_invariant _ FMap.input _ rfl⟩

end RefineDet
